import Mathlib

/-!
Shallow embedding of the image-stack engine of `src/stack.py` (class `Stack`
and class `RoiSet`), together with theorems settling the specification
claims about it.

Modelling conventions:
* Python exceptions become the `PyErr` error type of an `Except`/pair result.
  Exception messages are dropped; only the exception class is kept.
* Python integers are `Int`; sizes extracted from the regex `(\d+)` groups
  are `Nat` (the regex only matches digit runs).  Python's `//` and `%` agree
  with `Int.ediv` and `Int.emod` for the positive divisors produced by the
  metadata parsers (for a zero divisor Python raises `ZeroDivisionError`,
  a case no claim exercises).
* The TIFF file object delivered by the `tifffile` collaborator is modelled
  as a list of pages carrying the fields the code reads (`imagewidth`,
  `imagelength`, `bitspersample`, the description together with the
  `is_imagej` / `is_ome` dialect flags).  The ImageJ description is modelled
  by the results of the three regex searches (`frames=`, `slices=`,
  `channels=`); the OME description by the parsed XML facts the code
  queries (presence of the `Image` and `Pixels` elements and the `Pixels`
  attributes, with the string-to-int conversion of an attribute abstracted
  to its integer value).
* The numpy memmap and the temporary file are modelled by presence flags;
  writing a page into `img[ch, fr]` raises `IndexError` when the computed
  index is out of the array's bounds, which the fill loop model reproduces.
-/

namespace Pyama

/-- The Python exception classes raised by the code under `src/stack.py`. -/
inductive PyErr
  | nameError
  | typeError
  | valueError
  | attributeError
  | indexError
  | keyError
deriving DecidableEq, Repr

/-- The two dimension orders `self._order` can hold: "tc" (frame-major,
channel varying fastest) and "ct" (channel-major). -/
inductive Order
  | tc
  | ct
deriving DecidableEq, Repr

/-- The fields of a `Stack` that the claims observe.  `img` and `tmpfile`
record whether `self.img` / `self._tmpfile` hold an object (`true`) or
`None` (`false`). -/
structure StackState where
  path : Option String
  img : Bool
  tmpfile : Bool
  mode : Option Nat
  order : Option Order
  width : Nat
  height : Nat
  n_images : Nat
  n_frames : Nat
  n_channels : Nat
deriving DecidableEq, Repr

/-- The state produced by `Stack._clear_state` (source lines 39-64): every
field back to its empty value. -/
def emptyState : StackState :=
  { path := none, img := false, tmpfile := false, mode := none, order := none,
    width := 0, height := 0, n_images := 0, n_frames := 0, n_channels := 0 }

/-- Result of the three regex searches on an ImageJ description tag:
`frames=(\d+)`, `slices=(\d+)`, `channels=(\d+)`; `none` means no match. -/
structure ImageJDesc where
  frames : Option Nat
  slices : Option Nat
  channels : Option Nat
deriving DecidableEq, Repr

/-- The dimension information a metadata parser stores into the stack:
`self._order`, `self._n_frames`, `self._n_channels`. -/
structure ParsedDims where
  order : Order
  n_frames : Nat
  n_channels : Nat
deriving DecidableEq, Repr

/-- `Stack._parse_imagej_tags` (source lines 130-156).  Sets order "tc";
`n_frames` from `frames=` (default 1); when a `slices=` match exists, folds
it into `n_frames` if `n_frames == 1 and n_slices > 1`, and otherwise
evaluates the guard `elif n_frames > 1` whose local variable `n_frames` was
never assigned, so Python raises `NameError` before the intended
`ValueError` can be raised; `n_channels` from `channels=` (default 1). -/
def parse_imagej_tags (desc : ImageJDesc) : Except PyErr ParsedDims :=
  let n_frames := desc.frames.getD 1
  match desc.slices with
  | some n_slices =>
    if n_frames = 1 ∧ n_slices > 1 then
      .ok ⟨Order.tc, n_slices, desc.channels.getD 1⟩
    else
      .error .nameError
  | none => .ok ⟨Order.tc, n_frames, desc.channels.getD 1⟩

/-- Python's `str.find` for a single character on the model of a string as
a list of characters: index of the first occurrence, or -1. -/
def str_find (s : List Char) (c : Char) : Int :=
  match s with
  | [] => -1
  | h :: t =>
    if h = c then 0
    else
      let r := str_find t c
      if r = -1 then -1 else r + 1

/-- The facts `Stack._parse_ome` queries of the parsed OME XML document:
whether the root has an `Image` child, whether that has a `Pixels` child,
and the `SizeT`, `SizeC`, `SizeZ`, `DimensionOrder` attributes of the
`Pixels` element (`none` = attribute absent; a present size attribute is
modelled by its integer value, abstracting the `int(...)` conversion). -/
structure OmeDesc where
  hasImage : Bool
  hasPixels : Bool
  sizeT : Option Int
  sizeC : Option Int
  sizeZ : Option Int
  dimensionOrder : Option (List Char)
deriving DecidableEq, Repr

/-- `Stack._parse_ome` (source lines 159-239): missing `Image`/`Pixels`
element raises `TypeError`; missing or non-positive `SizeT`/`SizeC`/`SizeZ`
raises `ValueError`; `SizeZ` different from 1 raises `ValueError`; the
dimension order is "tc" when `DimensionOrder.find('C')` is smaller than
`DimensionOrder.find('T')` and "ct" otherwise, with `ValueError` when either
character is absent. -/
def parse_ome (d : OmeDesc) : Except PyErr ParsedDims :=
  if !d.hasImage then .error .typeError
  else if !d.hasPixels then .error .typeError
  else
    match d.sizeT with
    | none => .error .valueError
    | some t =>
      if t < 1 then .error .valueError
      else
        match d.sizeC with
        | none => .error .valueError
        | some c =>
          if c < 1 then .error .valueError
          else
            match d.sizeZ with
            | none => .error .valueError
            | some z =>
              if z < 1 then .error .valueError
              else if z ≠ 1 then .error .valueError
              else
                match d.dimensionOrder with
                | none => .error .valueError
                | some s =>
                  let idx_C := str_find s ('C')
                  let idx_T := str_find s ('T')
                  if idx_C = -1 ∨ idx_T = -1 then .error .valueError
                  else if idx_C < idx_T then .ok ⟨Order.tc, t.toNat, c.toNat⟩
                  else .ok ⟨Order.ct, t.toNat, c.toNat⟩

/-- The image-ward direction of `Stack.convert_position`:
tc: `image = frame * n_channels + channel`;
ct: `image = channel * n_frames + frame` (source lines 272, 281). -/
def convert_to1 (o : Order) (nc nf : Int) (channel frame : Int) : Int :=
  match o with
  | .tc => frame * nc + channel
  | .ct => channel * nf + frame

/-- The pair-ward direction of `Stack.convert_position`:
tc: `channel = image % n_channels`, `frame = image // n_channels`;
ct: `channel = image // n_frames`, `frame = image % n_frames`
(source lines 268-269, 277-278). -/
def convert_to2 (o : Order) (nc nf : Int) (image : Int) : Int × Int :=
  match o with
  | .tc => (image % nc, image / nc)
  | .ct => (image / nf, image % nf)

/-- The two possible non-`None` results of `Stack.convert_position`:
a `(channel, frame)` tuple or an image index. -/
inductive ConvResult
  | pair (channel frame : Int)
  | index (image : Int)
deriving DecidableEq, Repr

/-- `Stack.convert_position` (source lines 242-285).  Keyword arguments are
`Option Int` (`none` = not given).  Both `channel` and `frame` absent means
image-to-pair; exactly one absent returns `None`; image-to-pair with no
`image` returns `None`; unset order returns `None`; otherwise the formulas
of `convert_to1` / `convert_to2` are applied with no range checking. -/
def convert_position (st : StackState) (channel frame image : Option Int) :
    Option ConvResult :=
  if channel.isNone ∧ frame.isNone then
    match image with
    | none => none
    | some i =>
      match st.order with
      | none => none
      | some o =>
        some (.pair (convert_to2 o st.n_channels st.n_frames i).1
                    (convert_to2 o st.n_channels st.n_frames i).2)
  else if channel.isNone ∨ frame.isNone then none
  else
    match channel, frame with
    | some c, some f =>
      match st.order with
      | none => none
      | some o => some (.index (convert_to1 o st.n_channels st.n_frames c f))
    | _, _ => none

/-- A stack state whose dimension metadata is populated the way a
successful parse leaves it, for reasoning about `convert_position`. -/
def mkState (o : Order) (nc nf : Nat) : StackState :=
  { path := none, img := false, tmpfile := false, mode := none,
    order := some o, width := 0, height := 0,
    n_images := nc * nf, n_frames := nf, n_channels := nc }

/-- The description of a TIFF page as the loader sees it: either
`page0.is_imagej` holds and the description parses in the ImageJ dialect,
or `page0.is_ome` holds and it parses in the OME dialect, or neither. -/
inductive PageDesc
  | imagej (d : ImageJDesc)
  | ome (d : OmeDesc)
  | other
deriving DecidableEq, Repr

/-- The fields of a `tifffile` page that `Stack.load` reads. -/
structure Page where
  imagewidth : Nat
  imagelength : Nat
  bitspersample : Nat
  desc : PageDesc
deriving DecidableEq, Repr

/-- The TIFF file object: its list of pages. -/
structure TiffFile where
  pages : List Page
deriving DecidableEq, Repr

/-- The fill loop of `Stack.load` (source lines 105-107): each page index is
sent through `convert_position(image=i)` and the page is decoded into
`self.img[ch, fr]`; numpy raises `IndexError` when the computed index lies
outside the array of shape `(n_channels, n_frames, ...)`.  Returns `true`
when every page lands inside the array. -/
def fill_ok (st : StackState) : Bool :=
  (List.range st.n_images).all fun i =>
    match convert_position st none none (some (i : Int)) with
    | some (.pair c f) =>
      decide (0 ≤ c ∧ c < (st.n_channels : Int) ∧ 0 ≤ f ∧ f < (st.n_frames : Int))
    | _ => false

/-- The body of the `try` block of `Stack.load` (source lines 70-107): check
pages exist, read the first page's geometry and bit depth, reject depths
other than 8 and 16 with `TypeError`, dispatch on the dialect (`TypeError`
for an unknown one), allocate the temporary file and memmap, and run the
fill loop. -/
def load_attempt (path : String) (tiff : TiffFile) : Except PyErr StackState :=
  match tiff.pages with
  | [] => .error .valueError
  | page0 :: _ =>
    if page0.bitspersample ≠ 8 ∧ page0.bitspersample ≠ 16 then .error .typeError
    else
      match (match page0.desc with
             | .imagej d => parse_imagej_tags d
             | .ome d => parse_ome d
             | .other => .error .typeError) with
      | .error e => .error e
      | .ok dims =>
        let st : StackState :=
          { path := some path, img := true, tmpfile := true,
            mode := some page0.bitspersample, order := some dims.order,
            width := page0.imagewidth, height := page0.imagelength,
            n_images := tiff.pages.length,
            n_frames := dims.n_frames, n_channels := dims.n_channels }
        if fill_ok st then .ok st else .error .indexError

/-- `Stack.load` (source lines 67-118): on success the populated state, on
any failure the `except` clause runs `self._clear_state()` and re-raises,
so the returned state is `emptyState` together with the exception. -/
def load (path : String) (tiff : TiffFile) : StackState × Option PyErr :=
  match load_attempt path tiff with
  | .ok st => (st, none)
  | .error e => (emptyState, some e)

/-- `Stack.close` (source lines 121-127): sets `self.img = None`, then calls
`self._tmpfile.close()` — an `AttributeError` when `self._tmpfile` is `None`
— and otherwise clears the whole state. -/
def close (st : StackState) : StackState × Option PyErr :=
  if st.tmpfile then (emptyState, none)
  else ({ st with img := false }, some .attributeError)

/-- A region of interest; the claims never inspect its geometry, only its
identity, so it is modelled by an id. -/
structure Roi where
  id : Nat
deriving DecidableEq, Repr

/-- The container handed to `RoiSet.__init__` as `roi_arr`: in the
repository a Python list of ROIs; the spec's data model describes a dict
from string label to ROI. -/
inductive RoiArr
  | ofList (xs : List Roi)
  | ofDict (xs : List (String × Roi))
deriving DecidableEq, Repr

/-- A Python subscript key as used on `RoiSet`: an integer or a string. -/
inductive PyKey
  | int (i : Int)
  | str (s : String)
deriving DecidableEq, Repr

/-- Python's `container[key]` for the two container shapes: list indexing
(negative indices count from the end, out of range raises `IndexError`, a
string key raises `TypeError`) and dict lookup (a missing key raises
`KeyError`). -/
def pyGetItem (arr : RoiArr) (key : PyKey) : Except PyErr Roi :=
  match arr, key with
  | .ofList xs, .int i =>
    let n : Int := xs.length
    let j := if i < 0 then i + n else i
    if h : 0 ≤ j ∧ j < n then
      .ok (xs.get ⟨j.toNat, by omega⟩)
    else .error .indexError
  | .ofList _, .str _ => .error .typeError
  | .ofDict xs, .str s =>
    match xs.lookup s with
    | some r => .ok r
    | none => .error .keyError
  | .ofDict _, .int _ => .error .keyError

/-- The ROI container of a `RoiSet` (source lines 462-472 store `roi_arr`
unchanged for both accepted types). -/
structure RoiSet where
  roi_arr : RoiArr
deriving DecidableEq, Repr

/-- `RoiSet.__init__` (source lines 462-472): the types "rect" and "raw"
store `roi_arr` as is; any other type reaches
`raise ValueError("Unknown ROI type: ...", type_, file=sys.stderr)`, whose
argument `sys.stderr` raises `NameError` because `sys` is never imported in
`stack.py`. -/
def RoiSet.make (roi_arr : RoiArr) (type_ : String) : Except PyErr RoiSet :=
  if type_ = ("rect") then .ok ⟨roi_arr⟩
  else if type_ = ("raw") then .ok ⟨roi_arr⟩
  else .error .nameError

/-- `RoiSet.__getitem__` (source lines 477-481): `self._roi_arr[key]` with
only `IndexError` caught and turned into `None`; every other exception
propagates. -/
def RoiSet.getitem (rs : RoiSet) (key : PyKey) : Except PyErr (Option Roi) :=
  match pyGetItem rs.roi_arr key with
  | .ok r => .ok (some r)
  | .error .indexError => .ok none
  | .error e => .error e

/-- The keys of the `Stack._rois` dict: an explicit frame index, the
`Ellipsis` default of `set_rois`, or the `None` default of `get_rois`. -/
inductive FrameKey
  | ellipsis
  | pynone
  | frame (i : Int)
deriving DecidableEq, Repr, BEq

/-- `Stack.get_rois` (source lines 395-397): `self._rois.get(frame)`, the
soft dict lookup returning `None` for an absent key. -/
def get_rois (rois : List (FrameKey × RoiSet)) (frame : FrameKey) :
    Option RoiSet :=
  rois.lookup frame

/-- The two lock objects of `Stack` that mutations take (`info_lock` guards
only the info dict, which no claim touches). -/
inductive LockId
  | imageLock
  | roiLock
deriving DecidableEq, Repr, BEq

/-- The notification kinds of the listener registry. -/
inductive NKind
  | image
  | roi
deriving DecidableEq, Repr, BEq

/-- One step in the linear event trace of a mutating operation. -/
inductive Event
  | acquire (l : LockId)
  | release (l : LockId)
  | mutate
  | notify (kind : Option NKind)
deriving DecidableEq, Repr, BEq

/-- The event trace of `Stack.set_rois` (source lines 375-386): inside
`with self.roi_lock` the ROI dict entry is replaced and then
`self._listeners.notify("roi")` is called, so the notification happens
before the lock release that ends the `with` block. -/
def set_rois_trace : List Event :=
  [.acquire .roiLock, .mutate, .notify (some .roi), .release .roiLock]

/-- The event trace of a successful `Stack.load` (source lines 67-118):
inside `with self.image_lock` the fields and the pixel buffer are written
and then the `finally` clause calls `self._listeners.notify("image")`, all
before the lock release that ends the `with` block. -/
def load_success_trace : List Event :=
  [.acquire .imageLock, .mutate, .mutate, .notify (some .image),
   .release .imageLock]

/-- Index of the first occurrence of an event in a trace (length if
absent). -/
def eventIdx (t : List Event) (e : Event) : Nat :=
  t.findIdx fun x => x == e

/-- The claim's temporal property on a trace: every notification occurs
strictly after the release of the mutating lock. -/
def claim_notify_after_release (t : List Event) (l : LockId) : Bool :=
  (List.range t.length).all fun i =>
    match t.get? i with
    | some (.notify _) => decide (eventIdx t (.release l) < i)
    | _ => true

/-- The property the code actually has: every notification occurs after the
lock acquisition and after every mutation, but before the lock release. -/
def notify_while_locked (t : List Event) (l : LockId) : Bool :=
  (List.range t.length).all fun i =>
    match t.get? i with
    | some (.notify _) =>
      decide (eventIdx t (.acquire l) < i ∧
              (∀ j, j < t.length → t.get? j = some .mutate → j < i) ∧
              i < eventIdx t (.release l))
    | _ => true

/-- A one-page TIFF whose first page has 12 bits per sample. -/
def tiff12 : TiffFile :=
  ⟨[⟨100, 80, 12, .imagej ⟨some 2, none, some 1⟩⟩]⟩

/-- A one-page ImageJ TIFF whose description carries both `frames=3` and
`slices=4`. -/
def tiff_ambiguous : TiffFile :=
  ⟨[⟨100, 80, 8, .imagej ⟨some 3, some 4, none⟩⟩]⟩

/-- The spec's worked example: 15 pages, ImageJ description with `frames=5`,
no `slices`, `channels=3`, 8 bits per sample. -/
def tiff_worked : TiffFile :=
  ⟨List.replicate 15 ⟨100, 80, 8, .imagej ⟨some 5, none, some 3⟩⟩⟩

/-- A stack state as left by a successful load of `tiff_worked`. -/
def loadedExample : StackState :=
  { path := some ("w.tif"), img := true, tmpfile := true, mode := some 8,
    order := some Order.tc, width := 100, height := 80,
    n_images := 15, n_frames := 5, n_channels := 3 }

/-- Python's `find` returns a non-negative index when the character occurs
in the string. -/
lemma str_find_nonneg_of_mem (s : List Char) (c : Char) (h : c ∈ s) :
    0 ≤ str_find s c := by
  induction s with
  | nil => cases h
  | cons hd tl ih =>
    by_cases hc : hd = c
    · simp [str_find, hc]
    · have htl : c ∈ tl := by
        rcases List.mem_cons.mp h with h1 | h1
        · exact absurd h1.symm hc
        · exact h1
      have hr := ih htl
      simp only [str_find, if_neg hc]
      rw [if_neg (by omega)]
      omega

/-- Composing the two directions of `convert_position` image-ward gives the
identity: the formulas rebuild the index from its quotient and remainder. -/
lemma pair_to_index (o : Order) (nc nf i : Int) :
    convert_to1 o nc nf (convert_to2 o nc nf i).1 (convert_to2 o nc nf i).2 = i := by
  cases o
  · simp only [convert_to1, convert_to2]
    rw [mul_comm]
    exact Int.ediv_add_emod i nc
  · simp only [convert_to1, convert_to2]
    rw [mul_comm]
    exact Int.ediv_add_emod i nf

/-- Composing the two directions of `convert_position` pair-ward gives the
identity on in-range pairs. -/
lemma index_to_pair (o : Order) (nc nf c f : Int)
    (hc0 : 0 ≤ c) (hc : c < nc) (hf0 : 0 ≤ f) (hf : f < nf) :
    convert_to2 o nc nf (convert_to1 o nc nf c f) = (c, f) := by
  have hnc : nc ≠ 0 := by omega
  have hnf : nf ≠ 0 := by omega
  cases o
  · simp only [convert_to1, convert_to2, Prod.mk.injEq]
    constructor
    · rw [add_comm, Int.add_mul_emod_self, Int.emod_eq_of_lt hc0 hc]
    · rw [add_comm, Int.add_mul_ediv_right _ _ hnc,
        Int.ediv_eq_zero_of_lt hc0 hc, zero_add]
  · simp only [convert_to1, convert_to2, Prod.mk.injEq]
    constructor
    · rw [add_comm, Int.add_mul_ediv_right _ _ hnf,
        Int.ediv_eq_zero_of_lt hf0 hf, zero_add]
    · rw [add_comm, Int.add_mul_emod_self, Int.emod_eq_of_lt hf0 hf]

/-- C1: for both orders and all `n_channels ≥ 1`, `n_frames ≥ 1`, converting
an image index `i < n_channels * n_frames` to a `(channel, frame)` pair with
`convert_position` and converting the pair back yields `i`; and converting a
valid `(channel, frame)` pair to an image index and back yields the same
pair, with the tc formulas `image = frame * n_channels + channel`,
`channel = image mod n_channels`, `frame = image div n_channels` and the ct
formulas `image = channel * n_frames + frame`, `frame = image mod n_frames`,
`channel = image div n_frames` as embedded in `convert_to1` and
`convert_to2`. -/
theorem convert_position_roundtrip :
    ∀ (o : Order) (nc nf : Nat), 1 ≤ nc → 1 ≤ nf →
    ((∀ i : Nat, i < nc * nf →
      convert_position (mkState o nc nf) none none (some (i : Int)) =
        some (.pair (convert_to2 o nc nf (i : Int)).1
                    (convert_to2 o nc nf (i : Int)).2) ∧
      convert_position (mkState o nc nf)
          (some (convert_to2 o nc nf (i : Int)).1)
          (some (convert_to2 o nc nf (i : Int)).2) none =
        some (.index (i : Int))) ∧
    (∀ c f : Nat, c < nc → f < nf →
      convert_position (mkState o nc nf) (some (c : Int)) (some (f : Int)) none =
        some (.index (convert_to1 o nc nf (c : Int) (f : Int))) ∧
      convert_position (mkState o nc nf) none none
          (some (convert_to1 o nc nf (c : Int) (f : Int))) =
        some (.pair (c : Int) (f : Int)))) := by
  intro o nc nf hnc hnf
  constructor
  · intro i hi
    constructor
    · simp [convert_position, mkState]
    · simp [convert_position, mkState]
      exact pair_to_index o nc nf i
  · intro c f hc hf
    constructor
    · simp [convert_position, mkState]
    · have h := index_to_pair o (nc : Int) (nf : Int) c f
        (Int.natCast_nonneg c) (by exact_mod_cast hc)
        (Int.natCast_nonneg f) (by exact_mod_cast hf)
      simp [convert_position, mkState]
      exact ⟨congrArg Prod.fst h, congrArg Prod.snd h⟩

/-- Witness for C1 at the spec's worked example: order tc, 3 channels,
5 frames, image index 7 maps to channel 1, frame 2, and back. -/
theorem convert_position_roundtrip_witness :
    (1 ≤ 3) ∧ (1 ≤ 5) ∧ (7 < 3 * 5) ∧
    convert_position (mkState .tc 3 5) none none (some 7) =
      some (.pair 1 2) ∧
    convert_position (mkState .tc 3 5) (some 1) (some 2) none =
      some (.index 7) := by
  have h := (convert_position_roundtrip .tc 3 5 (by decide) (by decide)).1 7
    (by decide)
  exact ⟨by decide, by decide, by decide, h.1.trans (by decide),
    (by decide : convert_position (mkState .tc 3 5) (some 1) (some 2) none =
      convert_position (mkState .tc 3 5)
        (some (convert_to2 .tc 3 5 (7 : Int)).1)
        (some (convert_to2 .tc 3 5 (7 : Int)).2) none).trans h.2⟩

/-- C2: every load-time failure leaves the stack fully reset to the empty
state (path `None`, `n_images` 0, and every other field at its empty value),
and in particular a first page whose bits per sample is neither 8 nor 16
makes `load` fail. -/
theorem load_failure_resets :
    (∀ (path : String) (tiff : TiffFile),
      ((load path tiff).2).isSome →
      (load path tiff).1.path = none ∧ (load path tiff).1.n_images = 0 ∧
      (load path tiff).1 = emptyState) ∧
    (∀ (path : String) (tiff : TiffFile) (p0 : Page) (rest : List Page),
      tiff.pages = p0 :: rest → p0.bitspersample ≠ 8 → p0.bitspersample ≠ 16 →
      ((load path tiff).2).isSome) := by
  constructor
  · intro path tiff h
    cases hl : load_attempt path tiff with
    | ok st => simp [load, hl] at h
    | error e => simp [load, hl, emptyState]
  · intro path tiff p0 rest hp h8 h16
    simp [load, load_attempt, hp, h8, h16]

/-- Witness for C2 at a one-page TIFF with 12 bits per sample: `load` fails
and the resulting state is the empty state. -/
theorem load_failure_resets_witness :
    ((load ("f.tif") tiff12).2).isSome ∧
    (load ("f.tif") tiff12).1 = emptyState := by
  have h2 := load_failure_resets.2 ("f.tif") tiff12
    ⟨100, 80, 12, .imagej ⟨some 2, none, some 1⟩⟩ [] rfl
    (by decide) (by decide)
  exact ⟨h2, (load_failure_resets.1 ("f.tif") tiff12 h2).2.2⟩

/-- C3: an ImageJ description carrying both `frames=3` and `slices=4`
makes the parse (and hence `load`) fail, but with a `NameError` raised by
the undefined local variable `n_frames` in the guard `elif n_frames > 1`,
not with the typed error the intended
`ValueError("Bad image format: multiple slices and frames detected.")`
would give; `load` still resets the stack and propagates the exception. -/
theorem ambiguous_dims_name_error :
    parse_imagej_tags ⟨some 3, some 4, none⟩ = .error .nameError ∧
    load ("a.tif") tiff_ambiguous = (emptyState, some PyErr.nameError) :=
  ⟨rfl, rfl⟩

/-- C4: for every OME description whose `Pixels` element is well-formed and
whose `DimensionOrder` contains both a C and a T, the parsed order is "tc"
when the position of C is smaller than the position of T and "ct"
otherwise; in particular XYCZT gives tc and XYZTC gives ct. -/
theorem ome_dimension_order :
    (∀ (t c : Int) (s : List Char), 1 ≤ t → 1 ≤ c →
      ('C') ∈ s → ('T') ∈ s →
      parse_ome ⟨true, true, some t, some c, some 1, some s⟩ =
        .ok ⟨if str_find s ('C') < str_find s ('T') then Order.tc
             else Order.ct, t.toNat, c.toNat⟩) ∧
    parse_ome ⟨true, true, some 4, some 2, some 1,
      some ['X','Y','C','Z','T']⟩ = .ok ⟨Order.tc, 4, 2⟩ ∧
    parse_ome ⟨true, true, some 4, some 2, some 1,
      some ['X','Y','Z','T','C']⟩ = .ok ⟨Order.ct, 4, 2⟩ := by
  refine ⟨?_, rfl, rfl⟩
  intro t c s ht hc hC hT
  have h1 : ¬ t < 1 := by omega
  have h2 : ¬ c < 1 := by omega
  have hCn := str_find_nonneg_of_mem s ('C') hC
  have hTn := str_find_nonneg_of_mem s ('T') hT
  have h3 : ¬ (str_find s ('C') = -1 ∨ str_find s ('T') = -1) := by omega
  simp only [parse_ome, Bool.not_true, Bool.false_eq_true, if_false,
    if_neg h1, if_neg h2, if_neg h3]
  norm_num
  split <;> simp

/-- Witness for C4 at `DimensionOrder = "XYCZT"` with `SizeT=4`, `SizeC=2`,
`SizeZ=1`. -/
theorem ome_dimension_order_witness :
    (('C') ∈ ['X','Y','C','Z','T']) ∧ (('T') ∈ ['X','Y','C','Z','T']) ∧
    parse_ome ⟨true, true, some 4, some 2, some 1,
      some ['X','Y','C','Z','T']⟩ = .ok ⟨Order.tc, 4, 2⟩ :=
  ⟨by decide, by decide,
    (ome_dimension_order.1 4 2 ['X','Y','C','Z','T']
      (by decide) (by decide) (by decide) (by decide)).trans rfl⟩

/-- C5: the worked example (`frames=5`, `slices` absent, `channels=3`)
parses to order tc with 5 frames and 3 channels and loads to a stack with
`n_images = 15`; but an ImageJ description carrying `slices=1` (with
`frames` absent) does not parse to `n_frames = 1` as the claim requires —
the guard `elif n_frames > 1` reads the undefined local `n_frames` and
raises `NameError`. -/
theorem imagej_parse_eval :
    parse_imagej_tags ⟨some 5, none, some 3⟩ = .ok ⟨Order.tc, 5, 3⟩ ∧
    (load ("w.tif") tiff_worked).1.n_images = 15 ∧
    (load ("w.tif") tiff_worked).2 = none ∧
    parse_imagej_tags ⟨none, some 1, none⟩ = .error .nameError :=
  ⟨rfl, rfl, rfl, rfl⟩

/-- C6 counterexample: with order tc, 3 channels and 2 frames, the
out-of-range channel 5 does not fail with an `IndexError` — `convert_position`
performs no range check and returns the image index 5 computed by the
formula. -/
theorem convert_out_of_range_counterexample :
    convert_position (mkState .tc 3 2) (some 5) (some 0) none =
      some (.index 5) := rfl

/-- C6 amended: `convert_position` performs no range validation at all —
for every known order and every integer channel/frame (or image) input,
in range or not, it returns the value computed by the formulas and never
raises. -/
theorem convert_position_no_range_check :
    ∀ (o : Order) (nc nf : Nat) (c f i : Int),
      convert_position (mkState o nc nf) (some c) (some f) none =
        some (.index (convert_to1 o nc nf c f)) ∧
      convert_position (mkState o nc nf) none none (some i) =
        some (.pair (convert_to2 o nc nf i).1 (convert_to2 o nc nf i).2) := by
  intro o nc nf c f i
  constructor <;> simp [convert_position, mkState]

/-- C7 counterexample: in the event traces of `set_rois` and of a
successful `load`, the notification does not occur after the release of the
mutating lock. -/
theorem notify_not_after_release :
    claim_notify_after_release set_rois_trace .roiLock = false ∧
    claim_notify_after_release load_success_trace .imageLock = false := by
  decide

/-- C7 amended: notifications are issued after all mutated fields are
updated but while the mutating lock is still held — inside the
`with`-block, after every mutation and before the lock release — in both
the `set_rois` trace and the successful `load` trace. -/
theorem notify_inside_lock :
    notify_while_locked set_rois_trace .roiLock = true ∧
    notify_while_locked load_success_trace .imageLock = true := by
  decide

/-- C8 counterexample: on a dict-backed ROI container, looking up the
absent label "b" raises `KeyError` — only `IndexError` is caught and turned
into `None`. -/
theorem roiset_missing_label_raises :
    RoiSet.getitem ⟨.ofDict [(("a"), ⟨0⟩)]⟩ (.str ("b")) =
      .error .keyError := rfl

/-- C8 amended: absence of a ROI is reported as null exactly when the
underlying lookup raises `IndexError`: an integer index beyond a list-backed
ROI container returns `None` without raising, and `Stack.get_rois` returns
`None` for a frame with no ROI set; but a missing label on a dict-backed
container raises `KeyError`. -/
theorem roiset_absence_soft :
    (∀ (xs : List Roi) (i : Int), (xs.length : Int) ≤ i →
      RoiSet.getitem ⟨.ofList xs⟩ (.int i) = .ok none) ∧
    (∀ (rois : List (FrameKey × RoiSet)) (fr : FrameKey),
      rois.lookup fr = none → get_rois rois fr = none) := by
  constructor
  · intro xs i h
    have hlen : (0 : Int) ≤ (xs.length : Int) := Int.natCast_nonneg _
    have h0 : ¬ i < 0 := by omega
    have hcond : ¬ (0 ≤ i ∧ i < (xs.length : Int)) := by omega
    simp [RoiSet.getitem, pyGetItem, h0, hcond]
  · intro rois fr h
    simpa [get_rois] using h

/-- Witness for C8 amended: index 5 on a one-element list-backed set gives
`None`, and `get_rois` on an empty ROI dict gives `None`. -/
theorem roiset_absence_soft_witness :
    (((([⟨0⟩] : List Roi)).length : Int) ≤ 5) ∧
    RoiSet.getitem ⟨.ofList [⟨0⟩]⟩ (.int 5) = .ok none ∧
    get_rois ([] : List (FrameKey × RoiSet)) .pynone = none :=
  ⟨by decide, roiset_absence_soft.1 [⟨0⟩] 5 (by decide),
    roiset_absence_soft.2 ([] : List (FrameKey × RoiSet)) .pynone rfl⟩

/-- C9: the types "rect" and "raw" are accepted and the ROI container is
stored unchanged, but an unknown type does not fail with a typed error
naming the type: evaluating the raise's argument `sys.stderr` raises
`NameError` because `sys` is never imported in `stack.py`. -/
theorem roiset_unknown_type_eval :
    RoiSet.make (.ofList []) ("ellipse") = .error .nameError ∧
    RoiSet.make (.ofList [⟨1⟩]) ("rect") = .ok ⟨.ofList [⟨1⟩]⟩ ∧
    RoiSet.make (.ofList [⟨2⟩]) ("raw") = .ok ⟨.ofList [⟨2⟩]⟩ :=
  ⟨rfl, rfl, rfl⟩

/-- C10: `close` on a stack whose temporary-file handle is `None` (the
empty state: never loaded, or already closed) raises `AttributeError` after
having set `img` to `None`, and `close` on a loaded stack (handle present)
succeeds and returns the stack to the empty state. -/
theorem close_requires_loaded :
    (∀ st : StackState, st.tmpfile = false →
      close st = ({ st with img := false }, some PyErr.attributeError)) ∧
    (∀ st : StackState, st.tmpfile = true →
      close st = (emptyState, none)) := by
  constructor <;> intro st h <;> simp [close, h]

/-- Witness for C10: `close` on the empty state raises `AttributeError`;
`close` on a loaded state succeeds; the succeeding `close` is therefore not
repeatable. -/
theorem close_requires_loaded_witness :
    close emptyState = (emptyState, some PyErr.attributeError) ∧
    close loadedExample = (emptyState, none) := by
  constructor
  · exact close_requires_loaded.1 emptyState rfl
  · exact close_requires_loaded.2 loadedExample rfl

end Pyama
